import Mathlib

/-!
Verification of the two command-line scripts of the `ollama-desktop-app`
repository: `backend/scripts/generate_image.py` (the generator) and
`backend/scripts/install_image_model.py` (the installer).

Both scripts are shallowly embedded as pure Lean functions.  Everything the
external diffusion library does (import success, accelerator availability,
model load, image generation, model download) is abstracted into an
environment record; the scripts' own logic — argument handling, device and
precision resolution, the step/guidance classification of the model
identifier, path construction, and the stdout/stderr/exit-code contract —
is translated line by line from the Python source.
-/

namespace ImageScripts

/-- Does the character list `p` begin the character list `l`?
Executable model of list-prefix matching used for substring search. -/
def charsBeginWith : List Char → List Char → Bool
  | [], _ => true
  | _ :: _, [] => false
  | a :: as, b :: bs => a == b && charsBeginWith as bs

/-- Does `needle` occur as a contiguous run inside `hay`? -/
def charsContain (needle : List Char) : List Char → Bool
  | [] => charsBeginWith needle []
  | b :: bs => charsBeginWith needle (b :: bs) || charsContain needle bs

/-- Model of Python's substring test `needle in hay` on strings. -/
def strContains (hay needle : String) : Bool :=
  charsContain needle.data hay.data

/-- Executable model of Python's `str.lower()`: lowercase every character.
(Faithful on the ASCII identifiers and flags these scripts deal with.) -/
def py_lower (s : String) : String :=
  String.mk (s.data.map Char.toLower)

/-- Model of `args.use_cpu.lower() == 'true'`: the force-CPU string flag of
both scripts parses to true exactly when its lowercased value is `"true"`. -/
def parse_use_cpu (s : String) : Bool :=
  py_lower s == "true"

/-- Model of `"cpu" if use_cpu else ("cuda" if torch.cuda.is_available() else "cpu")`,
shared verbatim by `generate_image.py` line 20 and `install_image_model.py`
line 50. -/
def resolve_device (use_cpu cuda_available : Bool) : String :=
  if use_cpu then "cpu" else (if cuda_available then "cuda" else "cpu")

/-- Model of `torch.float16 if device == "cuda" else torch.float32`,
shared by `generate_image.py` line 23 and `install_image_model.py` line 51. -/
def resolve_dtype (device : String) : String :=
  if device == "cuda" then "float16" else "float32"

/-- Model of `generate_image.py` lines 34–44: classify the model identifier
into a preset `(num_inference_steps, guidance_scale)` pair.
`is_turbo = "turbo" in model_name.lower()`;
`is_sdxl = "xl" in model_name.lower() or "sdxl" in model_name.lower()`;
turbo is tested first. Guidance is modelled as an exact rational. -/
def classify_model (model_name : String) : Nat × ℚ :=
  let is_turbo := strContains (py_lower model_name) "turbo"
  let is_sdxl := strContains (py_lower model_name) "xl" || strContains (py_lower model_name) "sdxl"
  if is_turbo then (4, 1.0)
  else if is_sdxl then (30, 7.5)
  else (25, 7.5)

/-- Does the character list end with the POSIX path separator? -/
def lastIsSep : List Char → Bool
  | [] => false
  | [c] => c == '/'
  | _ :: c :: rest => lastIsSep (c :: rest)

/-- POSIX model of `os.path.join(d, f)` for a relative second component `f`:
the empty directory yields `f`, a directory already ending in the separator
is concatenated directly, any other directory gets a separator inserted. -/
def path_join (d f : String) : String :=
  if d = "" then f
  else if lastIsSep d.data then d ++ f
  else d ++ "/" ++ f

/-- A POSIX path is absolute when it starts with the separator. -/
def isAbsolutePath (s : String) : Bool :=
  charsBeginWith ['/'] s.data

/-- The file name `generated-{int(time.time())}.png` built at
`generate_image.py` line 54, with the whole-second timestamp abstracted. -/
def generated_path (output_dir : String) (timestamp : Nat) : String :=
  path_join output_dir ("generated-" ++ toString timestamp ++ ".png")

/-- Abstraction of everything outside the generator's own code: whether the
`diffusers`/`torch` import succeeds (and the import error message if not),
whether CUDA is available, whether `from_pretrained`/`.to(device)` succeeds,
whether the pipeline call succeeds, and the current whole-second time. -/
structure GenEnv where
  importOk : Bool
  importErrMsg : String
  cudaAvailable : Bool
  loadOk : Bool
  loadErrMsg : String
  genOk : Bool
  genErrMsg : String
  timestamp : Nat
deriving DecidableEq

/-- Observable outcome of one run of the generator script: the lines written
to each stream, the process exit status, the device/dtype chosen (none when
execution failed before choosing them), the sampling parameters passed to
the pipeline, and the filesystem effects. A stack trace printed by
`traceback.print_exc` is modelled as the single stderr entry `"<traceback>"`. -/
structure GenResult where
  stdout : List String
  stderr : List String
  exitCode : Nat
  device : Option String
  dtype : Option String
  steps : Option Nat
  guidance : Option ℚ
  dirCreated : Bool
  fileWritten : Option String
deriving DecidableEq

set_option linter.unusedVariables false in
/-- Line-by-line embedding of `generate_image(prompt, model_name, output_dir,
use_cpu)` from `generate_image.py`.  Control flow: the import can raise
`ImportError` (handled without a trace); the model load and the pipeline call
can raise any other exception (handled with a trace); `os.makedirs` and
`image.save` run only after the pipeline call returned, and the single
stdout line is printed last. -/
def generate_image (prompt model_name output_dir : String) (use_cpu : Bool)
    (env : GenEnv) : GenResult :=
  if env.importOk then
    let device := resolve_device use_cpu env.cudaAvailable
    let dtype := resolve_dtype device
    let head := ["Loading model: " ++ model_name, "Using device: " ++ device]
    if env.loadOk then
      let params := classify_model model_name
      if env.genOk then
        let output_path := generated_path output_dir env.timestamp
        { stdout := ["IMAGE_PATH:" ++ output_path],
          stderr := head ++ ["Generating image..."],
          exitCode := 0,
          device := some device, dtype := some dtype,
          steps := some params.1, guidance := some params.2,
          dirCreated := true, fileWritten := some output_path }
      else
        { stdout := [],
          stderr := head ++ ["Generating image...",
                             "ERROR: " ++ env.genErrMsg, "<traceback>"],
          exitCode := 1,
          device := some device, dtype := some dtype,
          steps := some params.1, guidance := some params.2,
          dirCreated := false, fileWritten := none }
    else
      { stdout := [],
        stderr := head ++ ["ERROR: " ++ env.loadErrMsg, "<traceback>"],
        exitCode := 1,
        device := some device, dtype := some dtype,
        steps := none, guidance := none,
        dirCreated := false, fileWritten := none }
  else
    { stdout := [],
      stderr := ["ERROR: Missing required library: " ++ env.importErrMsg],
      exitCode := 1,
      device := none, dtype := none, steps := none, guidance := none,
      dirCreated := false, fileWritten := none }

/-- The generator's `__main__` block: the `--use-cpu` string is parsed with
`args.use_cpu.lower() == 'true'` and passed to `generate_image`. -/
def generator_main (prompt model output_dir use_cpu_str : String)
    (env : GenEnv) : GenResult :=
  generate_image prompt model output_dir (parse_use_cpu use_cpu_str) env

/-- Model of Python's `a or b` on the two optional token environment
variables: a missing or empty first value falls through to the second. -/
def py_or_token : Option String → Option String → Option String
  | some s, b => if s = "" then b else some s
  | none, b => b

/-- Model of `token if token else None`: an empty or missing token is passed
to the library as `None`. -/
def token_arg : Option String → Option String
  | some s => if s = "" then none else some s
  | none => none

/-- Abstraction of everything outside the installer's own code: import
success, CUDA availability, success of the `from_pretrained` download call,
and the two token environment variables (`HF_TOKEN`,
`HUGGING_FACE_HUB_TOKEN`). -/
structure InstallEnv where
  importOk : Bool
  importErrMsg : String
  cudaAvailable : Bool
  downloadOk : Bool
  downloadErrMsg : String
  hfToken : Option String
  hfHubToken : Option String
deriving DecidableEq

/-- Observable outcome of one run of the installer script.
`heartbeatStarted` records whether the progress thread was started, and
`heartbeatStopSet` whether its stop event `done` was set by the time the
main flow left the download block (the `finally: done.set()` of
`install_image_model.py` line 63).  The heartbeat's own periodic stderr
lines are timing-dependent and are not part of the modelled stderr list;
they go to stderr only, never to stdout. -/
structure InstallResult where
  stdout : List String
  stderr : List String
  exitCode : Nat
  device : Option String
  dtype : Option String
  tokenPassed : Option String
  heartbeatStarted : Bool
  heartbeatStopSet : Bool
deriving DecidableEq

/-- Line-by-line embedding of `main()` from `install_image_model.py`.
The `--use-cpu` string is parsed inside the `try` block, after the imports;
the device/precision resolution and the download call sit inside an inner
`try ... finally: done.set()`, so the heartbeat stop event is set whether
the download returns or raises; `INSTALL_OK` is the only stdout line and
is printed only on the success path. -/
def install_model (model_name use_cpu_str : String) (env : InstallEnv) :
    InstallResult :=
  if env.importOk then
    let use_cpu := parse_use_cpu use_cpu_str
    let head := ["Downloading model: " ++ model_name,
                 "First install is 4–6GB+ and often takes 10–30 min.",
                 "If it runs longer than 30 min with no change, cancel and retry (network may have stalled)."]
    let device := resolve_device use_cpu env.cudaAvailable
    let dtype := resolve_dtype device
    let token := py_or_token env.hfToken env.hfHubToken
    if env.downloadOk then
      { stdout := ["INSTALL_OK"],
        stderr := head ++ ["Model installed successfully: " ++ model_name],
        exitCode := 0,
        device := some device, dtype := some dtype,
        tokenPassed := token_arg token,
        heartbeatStarted := true, heartbeatStopSet := true }
    else
      { stdout := [],
        stderr := head ++ ["ERROR: " ++ env.downloadErrMsg, "<traceback>"],
        exitCode := 1,
        device := some device, dtype := some dtype,
        tokenPassed := token_arg token,
        heartbeatStarted := true, heartbeatStopSet := true }
  else
    { stdout := [],
      stderr := ["ERROR: Missing required library: " ++ env.importErrMsg],
      exitCode := 1,
      device := none, dtype := none, tokenPassed := none,
      heartbeatStarted := false, heartbeatStopSet := false }

/-! ## Helper lemmas -/

/-- A list that begins with `p` still begins with `p` after appending. -/
theorem charsBeginWith_append : ∀ (p l₁ l₂ : List Char),
    charsBeginWith p l₁ = true → charsBeginWith p (l₁ ++ l₂) = true
  | [], _, _, _ => rfl
  | _ :: _, [], _, h => by simp [charsBeginWith] at h
  | a :: as, b :: bs, l₂, h => by
    simp only [charsBeginWith, Bool.and_eq_true, beq_iff_eq] at h ⊢
    exact ⟨h.1, charsBeginWith_append as bs l₂ h.2⟩

/-- Appending to an absolute path keeps it absolute. -/
theorem isAbsolutePath_append (a b : String) (h : isAbsolutePath a = true) :
    isAbsolutePath (a ++ b) = true := by
  unfold isAbsolutePath at h ⊢
  rw [String.data_append]
  exact charsBeginWith_append _ _ _ h

/-- `os.path.join` of an absolute directory with a relative file name is
absolute. -/
theorem isAbsolutePath_path_join (d f : String) (h : isAbsolutePath d = true) :
    isAbsolutePath (path_join d f) = true := by
  unfold path_join
  split
  · rename_i hd
    subst hd
    exact absurd h (by decide)
  · split
    · exact isAbsolutePath_append d f h
    · exact isAbsolutePath_append (d ++ "/") f (isAbsolutePath_append d "/" h)

/-- The missing-library diagnostic starts with `E`, whatever the message. -/
theorem err_line_head (s : String) :
    charsBeginWith ['E'] ("ERROR: Missing required library: " ++ s).data = true := by
  rw [String.data_append]
  exact charsBeginWith_append _ _ _ (by decide)

/-- The missing-library diagnostic is never the trace marker. -/
theorem err_line_ne_traceback (s : String) :
    "ERROR: Missing required library: " ++ s ≠ "<traceback>" := by
  intro h
  have h2 := err_line_head s
  rw [h] at h2
  exact absurd h2 (by decide)

/-! ## Claims -/

/-- C1: the generator's model-identifier classification is a pure function
of the identifier string: an identifier containing `"turbo"`
(case-insensitively) yields 4 steps and guidance 1.0; an identifier
containing `"xl"` or `"sdxl"` (case-insensitively) but not `"turbo"` yields
30 steps and guidance 7.5; every other identifier yields 25 steps and
guidance 7.5, the turbo branch taking precedence over the xl branch. -/
theorem C1_model_classification (m : String) :
    (strContains (py_lower m) "turbo" = true → classify_model m = (4, 1.0)) ∧
    ((strContains (py_lower m) "xl" = true ∨ strContains (py_lower m) "sdxl" = true) →
      strContains (py_lower m) "turbo" = false → classify_model m = (30, 7.5)) ∧
    (strContains (py_lower m) "turbo" = false → strContains (py_lower m) "xl" = false →
      strContains (py_lower m) "sdxl" = false → classify_model m = (25, 7.5)) := by
  refine ⟨fun ht => ?_, fun hx ht => ?_, fun ht hx hs => ?_⟩
  · simp [classify_model, ht]
  · rcases hx with h | h <;> simp [classify_model, ht, h]
  · simp [classify_model, ht, hx, hs]

/-- Witness for C1 at the spec's three example identifiers, plus the
precedence of turbo over xl on an identifier containing both. -/
theorem C1_model_classification_witness :
    classify_model "SD-Turbo-XL" = (4, 1.0) ∧
    classify_model "stabilityai/sdxl-base" = (30, 7.5) ∧
    classify_model "runwayml/stable-diffusion-v1-5" = (25, 7.5) :=
  ⟨(C1_model_classification "SD-Turbo-XL").1 (by decide),
   (C1_model_classification "stabilityai/sdxl-base").2.1 (Or.inl (by decide)) (by decide),
   (C1_model_classification "runwayml/stable-diffusion-v1-5").2.2
     (by decide) (by decide) (by decide)⟩

/-- C3: device resolution, identical in the generator and the installer:
a force-CPU flag that parses to true selects `"cpu"` regardless of
accelerator availability; one that parses to false selects `"cuda"` when
the accelerator is available and `"cpu"` otherwise — and both entry points
record exactly `resolve_device` of their parsed flag and availability. -/
theorem C3_device_resolution (p m d us : String) (u c : Bool)
    (ge : GenEnv) (ie : InstallEnv) :
    (u = true → resolve_device u c = "cpu") ∧
    (u = false → resolve_device u c = (if c then "cuda" else "cpu")) ∧
    (ge.importOk = true →
      (generate_image p m d u ge).device = some (resolve_device u ge.cudaAvailable)) ∧
    (ie.importOk = true →
      (install_model m us ie).device
          = some (resolve_device (parse_use_cpu us) ie.cudaAvailable)) := by
  obtain ⟨gio, gie, gca, glo, gle, ggo, gge, gts⟩ := ge
  obtain ⟨iio, iie, ica, ido, ide, iht, iht2⟩ := ie
  refine ⟨fun hu => by simp [resolve_device, hu], fun hu => by simp [resolve_device, hu],
          fun hio => ?_, fun hio => ?_⟩
  · subst hio
    cases glo <;> cases ggo <;> rfl
  · subst hio
    cases ido <;> rfl

/-- Witness for C3: forced CPU with an accelerator present still selects
CPU, the unforced flag selects the accelerator, and a concrete run of each
script records the resolved device. -/
theorem C3_device_resolution_witness :
    resolve_device true true = "cpu" ∧
    resolve_device false true = (if true then "cuda" else "cpu") ∧
    (generate_image "a" "m" "/out" true
        ⟨true, "", true, true, "", true, "", 5⟩).device
      = some (resolve_device true true) ∧
    (install_model "m" "false"
        ⟨true, "", true, true, "", none, none⟩).device
      = some (resolve_device (parse_use_cpu "false") true) :=
  ⟨(C3_device_resolution "a" "m" "/out" "false" true true
      ⟨true, "", true, true, "", true, "", 5⟩ ⟨true, "", true, true, "", none, none⟩).1 rfl,
   (C3_device_resolution "a" "m" "/out" "false" false true
      ⟨true, "", true, true, "", true, "", 5⟩ ⟨true, "", true, true, "", none, none⟩).2.1 rfl,
   (C3_device_resolution "a" "m" "/out" "false" true true
      ⟨true, "", true, true, "", true, "", 5⟩ ⟨true, "", true, true, "", none, none⟩).2.2.1 rfl,
   (C3_device_resolution "a" "m" "/out" "false" true true
      ⟨true, "", true, true, "", true, "", 5⟩ ⟨true, "", true, true, "", none, none⟩).2.2.2 rfl⟩

/-- C8: numeric precision in both scripts follows the resolved device: a
`"cuda"` device loads the pipeline in 16-bit floats, a `"cpu"` device in
32-bit floats. -/
theorem C8_precision (p m d us : String) (u : Bool)
    (ge : GenEnv) (ie : InstallEnv) :
    ((generate_image p m d u ge).device = some "cuda" →
      (generate_image p m d u ge).dtype = some "float16") ∧
    ((generate_image p m d u ge).device = some "cpu" →
      (generate_image p m d u ge).dtype = some "float32") ∧
    ((install_model m us ie).device = some "cuda" →
      (install_model m us ie).dtype = some "float16") ∧
    ((install_model m us ie).device = some "cpu" →
      (install_model m us ie).dtype = some "float32") := by
  have hg : (generate_image p m d u ge).dtype
      = ((generate_image p m d u ge).device).map resolve_dtype := by
    obtain ⟨gio, gie, gca, glo, gle, ggo, gge, gts⟩ := ge
    cases gio <;> cases glo <;> cases ggo <;> rfl
  have hi : (install_model m us ie).dtype
      = ((install_model m us ie).device).map resolve_dtype := by
    obtain ⟨iio, iie, ica, ido, ide, iht, iht2⟩ := ie
    cases iio <;> cases ido <;> rfl
  refine ⟨fun h => ?_, fun h => ?_, fun h => ?_, fun h => ?_⟩ <;>
    (first | rw [hg, h] | rw [hi, h]) <;> rfl

/-- Witness for C8: a CUDA run of the generator uses 16-bit floats and a
CPU run of the installer uses 32-bit floats. -/
theorem C8_precision_witness :
    (generate_image "a" "m" "/out" false
        ⟨true, "", true, true, "", true, "", 5⟩).dtype = some "float16" ∧
    (install_model "m" "true"
        ⟨true, "", true, true, "", none, none⟩).dtype = some "float32" :=
  ⟨(C8_precision "a" "m" "/out" "true" false
      ⟨true, "", true, true, "", true, "", 5⟩ ⟨true, "", true, true, "", none, none⟩).1 rfl,
   (C8_precision "a" "m" "/out" "true" false
      ⟨true, "", true, true, "", true, "", 5⟩ ⟨true, "", true, true, "", none, none⟩).2.2.2 rfl⟩

/-- C9: the force-CPU string flag of both entry points parses to true
exactly when its lowercased value is the string `"true"`; a true flag
forces the `"cpu"` device; and the strings `"1"`, `"yes"`, `"True "` (with
trailing whitespace) and `""` all parse to false rather than being
rejected. -/
theorem C9_use_cpu_flag (s : String) (c : Bool) :
    (parse_use_cpu s = true ↔ py_lower s = "true") ∧
    (parse_use_cpu s = true → resolve_device (parse_use_cpu s) c = "cpu") ∧
    parse_use_cpu "1" = false ∧ parse_use_cpu "yes" = false ∧
    parse_use_cpu "True " = false ∧ parse_use_cpu "" = false := by
  refine ⟨?_, fun h => by simp [resolve_device, h],
          by decide, by decide, by decide, by decide⟩
  simp [parse_use_cpu]

/-- Witness for C9: `"TRUE"` lowercases to `"true"`, parses to true and
forces the CPU device even with an accelerator available. -/
theorem C9_use_cpu_flag_witness :
    (parse_use_cpu "TRUE" = true ↔ py_lower "TRUE" = "true") ∧
    resolve_device (parse_use_cpu "TRUE") true = "cpu" ∧
    parse_use_cpu "1" = false :=
  ⟨(C9_use_cpu_flag "TRUE" true).1,
   (C9_use_cpu_flag "TRUE" true).2.1 (by decide),
   (C9_use_cpu_flag "TRUE" true).2.2.1⟩

/-- C2, counterexample to the claim as stated: with the relative output
directory `"out"`, a successful run prints a single `IMAGE_PATH:` line
whose path is the (relative) path of the written file, not an absolute
path. -/
theorem C2_generator_stdout_counterexample :
    (generate_image "a cat" "some-model" "out" false
        ⟨true, "", false, true, "", true, "", 0⟩).exitCode = 0 ∧
    (generate_image "a cat" "some-model" "out" false
        ⟨true, "", false, true, "", true, "", 0⟩).stdout
      = ["IMAGE_PATH:out/generated-0.png"] ∧
    (generate_image "a cat" "some-model" "out" false
        ⟨true, "", false, true, "", true, "", 0⟩).fileWritten
      = some "out/generated-0.png" ∧
    isAbsolutePath "out/generated-0.png" = false := by
  decide

/-- C2 (amended): on every successful run the generator writes exactly one
stdout line `IMAGE_PATH:<p>`, where `<p>` is the path of the written image
file — absolute whenever the output-directory argument is absolute — and on
every failing run it writes nothing to standard output. -/
theorem C2_generator_stdout (p m d : String) (u : Bool) (env : GenEnv) :
    (env.importOk = true → env.loadOk = true → env.genOk = true →
      (generate_image p m d u env).stdout
          = ["IMAGE_PATH:" ++ generated_path d env.timestamp] ∧
      (generate_image p m d u env).fileWritten
          = some (generated_path d env.timestamp) ∧
      (isAbsolutePath d = true →
        isAbsolutePath (generated_path d env.timestamp) = true)) ∧
    ((env.importOk = true ∧ env.loadOk = true ∧ env.genOk = true → False) →
      (generate_image p m d u env).stdout = []) := by
  obtain ⟨io, ie, ca, lo, le, go, ge, ts⟩ := env
  constructor
  · intro h1 h2 h3
    subst h1; subst h2; subst h3
    exact ⟨rfl, rfl, fun hd => isAbsolutePath_path_join d _ hd⟩
  · intro h
    cases io with
    | false => rfl
    | true =>
      cases lo with
      | false => rfl
      | true =>
        cases go with
        | false => rfl
        | true => exact absurd ⟨rfl, rfl, rfl⟩ h

/-- Witness for C2: a successful run with the absolute output directory
`"/tmp/out"` prints the one absolute-path line, and a run whose model load
fails prints nothing. -/
theorem C2_generator_stdout_witness :
    (generate_image "a" "m" "/tmp/out" false
        ⟨true, "", false, true, "", true, "", 7⟩).stdout
      = ["IMAGE_PATH:" ++ generated_path "/tmp/out" 7] ∧
    isAbsolutePath (generated_path "/tmp/out" 7) = true ∧
    (generate_image "a" "m" "/tmp/out" false
        ⟨true, "", false, false, "boom", true, "", 7⟩).stdout = [] :=
  ⟨((C2_generator_stdout "a" "m" "/tmp/out" false
      ⟨true, "", false, true, "", true, "", 7⟩).1 rfl rfl rfl).1,
   ((C2_generator_stdout "a" "m" "/tmp/out" false
      ⟨true, "", false, true, "", true, "", 7⟩).1 rfl rfl rfl).2.2 (by decide),
   (C2_generator_stdout "a" "m" "/tmp/out" false
      ⟨true, "", false, false, "boom", true, "", 7⟩).2 (by decide)⟩

/-- C4: both entry points distinguish exactly two terminal error kinds with
exit status 1: a missing dependency is reported on stderr as an `ERROR:`
line containing the import failure message with no stack trace, and every
other failure (model load, generation, download) as an `ERROR:` line with
the message plus a stack trace; in all cases nothing is written to
standard output. -/
theorem C4_error_kinds (p m d us : String) (u : Bool)
    (ge : GenEnv) (ie : InstallEnv) :
    (ge.importOk = false →
      (generate_image p m d u ge).exitCode = 1 ∧
      ("ERROR: Missing required library: " ++ ge.importErrMsg)
          ∈ (generate_image p m d u ge).stderr ∧
      "<traceback>" ∉ (generate_image p m d u ge).stderr ∧
      (generate_image p m d u ge).stdout = []) ∧
    (ge.importOk = true → ge.loadOk = false →
      (generate_image p m d u ge).exitCode = 1 ∧
      ("ERROR: " ++ ge.loadErrMsg) ∈ (generate_image p m d u ge).stderr ∧
      "<traceback>" ∈ (generate_image p m d u ge).stderr ∧
      (generate_image p m d u ge).stdout = []) ∧
    (ge.importOk = true → ge.loadOk = true → ge.genOk = false →
      (generate_image p m d u ge).exitCode = 1 ∧
      ("ERROR: " ++ ge.genErrMsg) ∈ (generate_image p m d u ge).stderr ∧
      "<traceback>" ∈ (generate_image p m d u ge).stderr ∧
      (generate_image p m d u ge).stdout = []) ∧
    (ie.importOk = false →
      (install_model m us ie).exitCode = 1 ∧
      ("ERROR: Missing required library: " ++ ie.importErrMsg)
          ∈ (install_model m us ie).stderr ∧
      "<traceback>" ∉ (install_model m us ie).stderr ∧
      (install_model m us ie).stdout = []) ∧
    (ie.importOk = true → ie.downloadOk = false →
      (install_model m us ie).exitCode = 1 ∧
      ("ERROR: " ++ ie.downloadErrMsg) ∈ (install_model m us ie).stderr ∧
      "<traceback>" ∈ (install_model m us ie).stderr ∧
      (install_model m us ie).stdout = []) := by
  obtain ⟨gio, gie, gca, glo, gle, ggo, gge, gts⟩ := ge
  obtain ⟨iio, iie, ica, ido, ide, iht, iht2⟩ := ie
  refine ⟨fun h1 => ?_, fun h1 h2 => ?_, fun h1 h2 h3 => ?_,
          fun h1 => ?_, fun h1 h2 => ?_⟩
  · subst h1
    refine ⟨rfl, ?_, ?_, rfl⟩
    · simp [generate_image]
    · simp only [generate_image]
      simp only [Bool.false_eq_true, if_false, List.mem_singleton]
      exact fun hc => err_line_ne_traceback gie hc.symm
  · subst h1; subst h2
    refine ⟨rfl, ?_, ?_, rfl⟩ <;> simp [generate_image]
  · subst h1; subst h2; subst h3
    refine ⟨rfl, ?_, ?_, rfl⟩ <;> simp [generate_image]
  · subst h1
    refine ⟨rfl, ?_, ?_, rfl⟩
    · simp [install_model]
    · simp only [install_model]
      simp only [Bool.false_eq_true, if_false, List.mem_singleton]
      exact fun hc => err_line_ne_traceback iie hc.symm
  · subst h1; subst h2
    refine ⟨rfl, ?_, ?_, rfl⟩ <;> simp [install_model]

/-- Witness for C4: concrete failing runs of both scripts — a missing
library in the generator, a failed generation, and a failed download in
the installer. -/
theorem C4_error_kinds_witness :
    "ERROR: Missing required library: No module named torch"
        ∈ (generate_image "a" "m" "/out" false
            ⟨false, "No module named torch", false, true, "", true, "", 0⟩).stderr ∧
    "<traceback>" ∈ (generate_image "a" "m" "/out" false
        ⟨true, "", false, true, "", false, "oom", 0⟩).stderr ∧
    "<traceback>" ∈ (install_model "m" "false"
        ⟨true, "", false, false, "net down", none, none⟩).stderr :=
  ⟨((C4_error_kinds "a" "m" "/out" "false" false
      ⟨false, "No module named torch", false, true, "", true, "", 0⟩
      ⟨true, "", false, false, "net down", none, none⟩).1 rfl).2.1,
   ((C4_error_kinds "a" "m" "/out" "false" false
      ⟨true, "", false, true, "", false, "oom", 0⟩
      ⟨true, "", false, false, "net down", none, none⟩).2.2.1 rfl rfl rfl).2.2.1,
   ((C4_error_kinds "a" "m" "/out" "false" false
      ⟨true, "", false, true, "", false, "oom", 0⟩
      ⟨true, "", false, false, "net down", none, none⟩).2.2.2.2 rfl rfl).2.2.1⟩

/-- C5: the installer's heartbeat stop event is set on both the success and
the failure path of the download call — whenever the heartbeat thread was
started, its stop event has been set by the end of the run. -/
theorem C5_heartbeat_stopped (m us : String) (ie : InstallEnv) :
    ((install_model m us ie).heartbeatStarted = true →
      (install_model m us ie).heartbeatStopSet = true) ∧
    (ie.importOk = true →
      (install_model m us ie).heartbeatStarted = true ∧
      (install_model m us ie).heartbeatStopSet = true) := by
  obtain ⟨iio, iie, ica, ido, ide, iht, iht2⟩ := ie
  cases iio <;> cases ido <;> exact ⟨fun h => by simp_all [install_model], fun h => by simp_all [install_model]⟩

/-- Witness for C5: the stop event is set after a successful download and
after a failed one. -/
theorem C5_heartbeat_stopped_witness :
    (install_model "m" "false"
        ⟨true, "", false, true, "", none, none⟩).heartbeatStopSet = true ∧
    (install_model "m" "false"
        ⟨true, "", false, false, "net down", none, none⟩).heartbeatStopSet = true :=
  ⟨((C5_heartbeat_stopped "m" "false"
      ⟨true, "", false, true, "", none, none⟩).2 rfl).2,
   ((C5_heartbeat_stopped "m" "false"
      ⟨true, "", false, false, "net down", none, none⟩).2 rfl).2⟩

/-- C6: on every run in which the external pipeline succeeds, the generator
creates the output directory, writes exactly one image file named
`generated-<unix-seconds>.png` into it, exits with status 0, and prints
exactly one `IMAGE_PATH:` line naming that written file. -/
theorem C6_generator_filesystem (p m d : String) (u : Bool) (env : GenEnv)
    (h1 : env.importOk = true) (h2 : env.loadOk = true) (h3 : env.genOk = true) :
    (generate_image p m d u env).dirCreated = true ∧
    (generate_image p m d u env).fileWritten
        = some (path_join d ("generated-" ++ toString env.timestamp ++ ".png")) ∧
    (generate_image p m d u env).stdout
        = ["IMAGE_PATH:" ++ path_join d ("generated-" ++ toString env.timestamp ++ ".png")] ∧
    (generate_image p m d u env).exitCode = 0 := by
  obtain ⟨io, ie, ca, lo, le, go, ge, ts⟩ := env
  subst h1; subst h2; subst h3
  exact ⟨rfl, rfl, rfl, rfl⟩

/-- Witness for C6: a concrete successful run writes
`/imgs/generated-42.png` and prints exactly that path. -/
theorem C6_generator_filesystem_witness :
    (generate_image "a" "m" "/imgs" false
        ⟨true, "", false, true, "", true, "", 42⟩).fileWritten
      = some (path_join "/imgs" ("generated-" ++ toString (42 : Nat) ++ ".png")) ∧
    (generate_image "a" "m" "/imgs" false
        ⟨true, "", false, true, "", true, "", 42⟩).dirCreated = true :=
  ⟨(C6_generator_filesystem "a" "m" "/imgs" false
      ⟨true, "", false, true, "", true, "", 42⟩ rfl rfl rfl).2.1,
   (C6_generator_filesystem "a" "m" "/imgs" false
      ⟨true, "", false, true, "", true, "", 42⟩ rfl rfl rfl).1⟩

/-- C7: on every successful run the installer writes exactly the single
line `INSTALL_OK` to standard output; on every failing run it writes
nothing to standard output. -/
theorem C7_installer_stdout (m us : String) (ie : InstallEnv) :
    (ie.importOk = true → ie.downloadOk = true →
      (install_model m us ie).stdout = ["INSTALL_OK"] ∧
      (install_model m us ie).exitCode = 0) ∧
    ((ie.importOk = true ∧ ie.downloadOk = true → False) →
      (install_model m us ie).stdout = [] ∧
      (install_model m us ie).exitCode = 1) := by
  obtain ⟨iio, iie, ica, ido, ide, iht, iht2⟩ := ie
  constructor
  · intro h1 h2
    subst h1; subst h2
    exact ⟨rfl, rfl⟩
  · intro h
    cases iio with
    | false => exact ⟨rfl, rfl⟩
    | true =>
      cases ido with
      | false => exact ⟨rfl, rfl⟩
      | true => exact absurd ⟨rfl, rfl⟩ h

/-- Witness for C7: a successful install prints `INSTALL_OK`; a failed
download prints nothing to standard output. -/
theorem C7_installer_stdout_witness :
    (install_model "m" "false"
        ⟨true, "", false, true, "", none, none⟩).stdout = ["INSTALL_OK"] ∧
    (install_model "m" "false"
        ⟨true, "", false, false, "net down", none, none⟩).stdout = [] :=
  ⟨((C7_installer_stdout "m" "false"
      ⟨true, "", false, true, "", none, none⟩).1 rfl rfl).1,
   ((C7_installer_stdout "m" "false"
      ⟨true, "", false, false, "net down", none, none⟩).2 (by decide)).1⟩

/-- C10: the generator touches the filesystem only after generation
succeeds — on every run in which the import, the model load, or the image
generation fails, the output directory is not created and no file is
written. -/
theorem C10_no_fs_change_on_error (p m d : String) (u : Bool) (env : GenEnv)
    (h : env.importOk = false ∨ env.loadOk = false ∨ env.genOk = false) :
    (generate_image p m d u env).dirCreated = false ∧
    (generate_image p m d u env).fileWritten = none := by
  obtain ⟨io, ie, ca, lo, le, go, ge, ts⟩ := env
  cases io <;> cases lo <;> cases go <;>
    first
      | exact ⟨rfl, rfl⟩
      | simp at h

/-- Witness for C10: a run whose generation call fails creates no directory
and writes no file. -/
theorem C10_no_fs_change_on_error_witness :
    (generate_image "a" "m" "/imgs" false
        ⟨true, "", false, true, "", false, "oom", 0⟩).dirCreated = false ∧
    (generate_image "a" "m" "/imgs" false
        ⟨true, "", false, true, "", false, "oom", 0⟩).fileWritten = none :=
  C10_no_fs_change_on_error "a" "m" "/imgs" false
    ⟨true, "", false, true, "", false, "oom", 0⟩ (Or.inr (Or.inr rfl))

end ImageScripts
